import Mathlib

/-!
# Credit Ledger & Subscription Reconciliation — shallow embedding

A shallow embedding of the billing subsystem of the multi-tenant SaaS
backend (`src/backend/src/billing/{models.py, service.py, webhook_handler.py}`),
together with theorems settling the specification claims about it.

Modelling conventions:
* UUIDs and datetimes are abstracted to `Nat` (ids / epoch instants); the
  all-zero placeholder UUID returned by `consume_credits` on insufficient
  funds is `0`, so real transaction ids are generated starting from `1`.
* The Supabase persistence layer becomes an explicit `DB` record holding the
  relevant tables as lists; `insert` appends, `update ... eq(id)` maps over
  matching rows, `select ... eq(...)` returns the first matching row
  (`result.data[0]` in the source).
* A Python method that performs writes and may raise becomes a function
  `DB → ... → DB × Except BillingErr α`: the returned `DB` is the state
  left behind even when the call raises (Supabase writes already executed
  are not rolled back by a later exception, exactly as in the source).
* `credit_transactions` inserts can be made to fail via the `insertTxOk`
  flag (persistence unavailable); `insertAttempts` counts every attempted
  insert into that table so that "no automatic retry" is provable.
* Pydantic `dict`-typed metadata fields carry no billing logic and are
  omitted; string `description` fields are kept as `Option String`.
-/

namespace Billing

/-- `SubscriptionStatus` enum from `models.py`. -/
inductive SubscriptionStatus where
  | trial
  | active
  | past_due
  | cancelled
  | expired
  | incomplete
  | incomplete_expired
  deriving DecidableEq, Repr

/-- `TransactionType` enum from `models.py`. -/
inductive TransactionType where
  | earned
  | purchased
  | consumed
  | expired
  | refunded
  deriving DecidableEq, Repr

/-- `TransactionSource` enum from `models.py`. -/
inductive TransactionSource where
  | subscription
  | purchase
  | event_consumption
  | expiry
  | refund
  | admin_adjustment
  deriving DecidableEq, Repr

/-- `TransactionSourceMapping.requires_source_id` (`models.py`):
membership in `SOURCES_REQUIRING_ID`. -/
def requiresSourceId : TransactionSource → Bool
  | .subscription => true
  | .purchase => true
  | .event_consumption => true
  | .refund => true
  | .expiry => false
  | .admin_adjustment => false

/-- Membership in `TransactionSourceMapping.SOURCES_WITHOUT_ID` (`models.py`). -/
def sourceWithoutId : TransactionSource → Bool
  | .expiry => true
  | .admin_adjustment => true
  | _ => false

/-- `TransactionSourceMapping.get_validation_error` (`models.py`): `some`
message when the `source`/`source_id` pairing is invalid, else `none`. -/
def getValidationError (source : TransactionSource) (sourceId : Option Nat) :
    Option String :=
  if requiresSourceId source ∧ sourceId = none then
    some "transaction source requires source_id"
  else if sourceWithoutId source ∧ sourceId ≠ none then
    some "transaction source should not have a source_id"
  else
    none

/-- `organizations` table row, restricted to the columns the billing
service reads and writes (`id`, `credit_balance`). -/
structure Org where
  id : Nat
  credit_balance : Int
  deriving DecidableEq, Repr

/-- `credit_transactions` table row (`CreditTransaction` in `models.py`). -/
structure CreditTx where
  id : Nat
  organization_id : Nat
  transaction_type : TransactionType
  amount : Int
  balance_after : Int
  source : TransactionSource
  source_id : Option Nat
  credit_event_id : Option Nat
  expires_at : Option Nat
  stripe_payment_intent_id : Option String
  description : Option String
  deriving DecidableEq, Repr

/-- `SubscriptionPlan` (`models.py`), restricted to the fields the billing
service and webhook handler consult. -/
structure SubscriptionPlan where
  id : Nat
  stripe_price_id : String
  included_credits : Int
  trial_period_days : Option Nat
  is_active : Bool
  deriving DecidableEq, Repr

/-- `organization_subscriptions` table row (`OrganizationSubscription`). -/
structure OrgSubscription where
  id : Nat
  organization_id : Nat
  subscription_plan_id : Option Nat
  stripe_customer_id : String
  status : SubscriptionStatus
  current_period_start : Option Nat
  current_period_end : Option Nat
  trial_start : Option Nat
  trial_end : Option Nat
  cancel_at_period_end : Bool
  cancelled_at : Option Nat
  deriving DecidableEq, Repr

/-- `CreditEvent` (`models.py`), restricted to the consulted fields. -/
structure CreditEvent where
  id : Nat
  name : String
  credit_cost : Int
  is_active : Bool
  deriving DecidableEq, Repr

/-- The persistent state the billing subsystem touches, plus the failure
switch and attempt counter for `credit_transactions` inserts. -/
structure DB where
  orgs : List Org
  transactions : List CreditTx
  subs : List OrgSubscription
  plans : List SubscriptionPlan
  events : List CreditEvent
  insertTxOk : Bool
  insertAttempts : Nat
  nextTxId : Nat
  nextSubId : Nat
  now : Nat
  deriving DecidableEq, Repr

/-- Errors a service call can raise. `validation` covers pydantic
`ValidationError` (a `ValueError` raised in `model_post_init`);
`notFound` covers the `ValueError`s raised on missing rows; `insertFailed`
covers a failed `credit_transactions` insert. -/
inductive BillingErr where
  | notFound (msg : String)
  | validation (msg : String)
  | insertFailed (msg : String)
  deriving DecidableEq, Repr

instance {ε α : Type} [DecidableEq ε] [DecidableEq α] : DecidableEq (Except ε α)
  | .error e, .error f =>
    if h : e = f then .isTrue (by rw [h])
    else .isFalse (fun hc => h (Except.error.inj hc))
  | .error _, .ok _ => .isFalse (fun hc => Except.noConfusion hc)
  | .ok _, .error _ => .isFalse (fun hc => Except.noConfusion hc)
  | .ok a, .ok b =>
    if h : a = b then .isTrue (by rw [h])
    else .isFalse (fun hc => h (Except.ok.inj hc))

/-- `select credit_balance from organizations where id = orgId` —
first matching row, as `result.data[0]` in the source. -/
def getBalance (orgs : List Org) (orgId : Nat) : Option Int :=
  (orgs.find? (fun o => o.id = orgId)).map (·.credit_balance)

/-- `update organizations set credit_balance = v where id = orgId`. -/
def setBalance (orgs : List Org) (orgId : Nat) (v : Int) : List Org :=
  orgs.map (fun o => if o.id = orgId then { o with credit_balance := v } else o)

/-- First `organization_subscriptions` row for an organization. -/
def findSub (subs : List OrgSubscription) (orgId : Nat) : Option OrgSubscription :=
  subs.find? (fun s => s.organization_id = orgId)

/-- `update organization_subscriptions ... where organization_id = orgId`. -/
def setSub (subs : List OrgSubscription) (orgId : Nat) (s' : OrgSubscription) :
    List OrgSubscription :=
  subs.map (fun s => if s.organization_id = orgId then s' else s)

/-- `get_subscription_plan`: first plan row with the given id. -/
def findPlan (plans : List SubscriptionPlan) (planId : Nat) : Option SubscriptionPlan :=
  plans.find? (fun p => p.id = planId)

/-- `next((p for p in plans if p.stripe_price_id == price_id), None)` over
`get_subscription_plans(active_only=False)`. -/
def findPlanByPrice (plans : List SubscriptionPlan) (priceId : String) :
    Option SubscriptionPlan :=
  plans.find? (fun p => p.stripe_price_id = priceId)

/-- `select * from credit_events where name = n and is_active = true`. -/
def findActiveEvent (events : List CreditEvent) (n : String) : Option CreditEvent :=
  events.find? (fun e => e.name = n ∧ e.is_active = true)

/-- Attempted insert into `credit_transactions`: bumps the attempt counter;
on success appends the row (with a fresh serial id) and returns it. -/
def insertTx (db : DB) (mk : Nat → CreditTx) : DB × Option CreditTx :=
  if db.insertTxOk then
    let t := mk db.nextTxId
    ({ db with
        transactions := db.transactions ++ [t]
        nextTxId := db.nextTxId + 1
        insertAttempts := db.insertAttempts + 1 }, some t)
  else
    ({ db with insertAttempts := db.insertAttempts + 1 }, none)

/-- `BillingService._add_credits` (`service.py:438-507`). Reads the balance,
writes `balance + credits`, then constructs the validated
`CreditTransactionCreate` (whose `model_post_init` raises on a bad
`source`/`source_id` pairing — note this happens *after* the balance write)
and inserts the transaction row with `balance_after = new_balance`. -/
def addCreditsImpl (db : DB) (orgId : Nat) (credits : Int)
    (source : TransactionSource) (sourceId : Option Nat) (expiresAt : Option Nat)
    (stripePaymentIntentId : Option String) (descr : Option String) :
    DB × Except BillingErr CreditTx :=
  match getBalance db.orgs orgId with
  | none => (db, .error (.notFound "organization not found"))
  | some currentBalance =>
    let newBalance := currentBalance + credits
    let db1 := { db with orgs := setBalance db.orgs orgId newBalance }
    match getValidationError source sourceId with
    | some msg => (db1, .error (.validation msg))
    | none =>
      let mk : Nat → CreditTx := fun txid =>
        { id := txid
          organization_id := orgId
          transaction_type :=
            if source = TransactionSource.subscription then .earned else .purchased
          amount := credits
          balance_after := newBalance
          source := source
          source_id := sourceId
          credit_event_id := none
          expires_at := expiresAt
          stripe_payment_intent_id := stripePaymentIntentId
          description := descr }
      match insertTx db1 mk with
      | (db2, some t) => (db2, .ok t)
      | (db2, none) => (db2, .error (.insertFailed "failed to create credit transaction"))

/-- `BillingService.add_subscription_credits` (`service.py:330-345`). -/
def addSubscriptionCredits (db : DB) (orgId : Nat) (credits : Int)
    (subscriptionId : Nat) (expiresAt : Option Nat) : DB × Except BillingErr CreditTx :=
  addCreditsImpl db orgId credits .subscription (some subscriptionId) expiresAt
    none (some "subscription credits allocation")

/-- `BillingService.add_purchased_credits` (`service.py:422-436`): delegates
to `_add_credits` with `source=PURCHASE` and — as in the source — **no**
`source_id` (only `stripe_payment_intent_id` is forwarded). -/
def addPurchasedCredits (db : DB) (orgId : Nat) (credits : Int)
    (stripePaymentIntentId : String) (descr : Option String) :
    DB × Except BillingErr CreditTx :=
  addCreditsImpl db orgId credits .purchase none none
    (some stripePaymentIntentId) (some (descr.getD "credit purchase"))

/-- `BillingService.reset_subscription_credits` (`service.py:347-420`).
Computes `credit_difference = credits - current_balance`; a zero difference
is a pure no-op returning `None`; otherwise the balance is set to exactly
`credits` and a single adjusting transaction is inserted with
`amount = credit_difference` and `balance_after = credits`. -/
def resetSubscriptionCredits (db : DB) (orgId : Nat) (credits : Int)
    (subscriptionId : Nat) (expiresAt : Option Nat) :
    DB × Except BillingErr (Option CreditTx) :=
  match getBalance db.orgs orgId with
  | none => (db, .error (.notFound "organization not found"))
  | some currentBalance =>
    let creditDifference := credits - currentBalance
    if creditDifference = 0 then
      (db, .ok none)
    else
      let db1 := { db with orgs := setBalance db.orgs orgId credits }
      match getValidationError .subscription (some subscriptionId) with
      | some msg => (db1, .error (.validation msg))
      | none =>
        let mk : Nat → CreditTx := fun txid =>
          { id := txid
            organization_id := orgId
            transaction_type := if creditDifference > 0 then .earned else .consumed
            amount := creditDifference
            balance_after := credits
            source := .subscription
            source_id := some subscriptionId
            credit_event_id := none
            expires_at := expiresAt
            stripe_payment_intent_id := none
            description := some "plan change: credits reset" }
        match insertTx db1 mk with
        | (db2, some t) => (db2, .ok (some t))
        | (db2, none) =>
          (db2, .error (.insertFailed "failed to create credit reset transaction"))

/-- `CreditConsumptionRequest` (`models.py`); `quantity` carries the
pydantic bound `ge=1`. -/
structure CreditConsumptionRequest where
  organization_id : Nat
  event_name : String
  quantity : Int
  deriving DecidableEq, Repr

/-- `CreditConsumptionResponse` (`models.py`). -/
structure CreditConsumptionResponse where
  success : Bool
  credits_consumed : Int
  balance_after : Int
  transaction_id : Nat
  deriving DecidableEq, Repr

/-- The suffix of `BillingService.consume_credits` (`service.py:534-604`)
starting from the already-read `current_balance`: the insufficient-funds
early return, or balance write + consumption-transaction insert. Split out
so an interleaving of two concurrent calls (each `await ... .execute()` is
a suspension point) can be expressed. -/
def consumeCreditsFrom (db : DB) (req : CreditConsumptionRequest)
    (ev : CreditEvent) (currentBalance : Int) :
    DB × Except BillingErr CreditConsumptionResponse :=
  let creditsNeeded := ev.credit_cost * req.quantity
  if currentBalance < creditsNeeded then
    (db, .ok { success := false, credits_consumed := 0,
               balance_after := currentBalance, transaction_id := 0 })
  else
    let newBalance := currentBalance - creditsNeeded
    let db1 := { db with orgs := setBalance db.orgs req.organization_id newBalance }
    match getValidationError .event_consumption (some ev.id) with
    | some msg => (db1, .error (.validation msg))
    | none =>
      let mk : Nat → CreditTx := fun txid =>
        { id := txid
          organization_id := req.organization_id
          transaction_type := .consumed
          amount := -creditsNeeded
          balance_after := newBalance
          source := .event_consumption
          source_id := some ev.id
          credit_event_id := some ev.id
          expires_at := none
          stripe_payment_intent_id := none
          description := some "consumed event" }
      match insertTx db1 mk with
      | (db2, some t) =>
        (db2, .ok { success := true, credits_consumed := creditsNeeded,
                    balance_after := newBalance, transaction_id := t.id })
      | (db2, none) =>
        (db2, .error (.insertFailed "failed to create consumption transaction"))

/-- `BillingService.consume_credits` (`service.py:509-604`): look up the
named active credit event, read the balance, then run the
compare-write-insert suffix. -/
def consumeCredits (db : DB) (req : CreditConsumptionRequest) :
    DB × Except BillingErr CreditConsumptionResponse :=
  match findActiveEvent db.events req.event_name with
  | none => (db, .error (.notFound "credit event not found or inactive"))
  | some ev =>
    match getBalance db.orgs req.organization_id with
    | none => (db, .error (.notFound "organization not found"))
    | some currentBalance => consumeCreditsFrom db req ev currentBalance

/-- `OrganizationSubscriptionUpdate` (`models.py`): every field optional;
`None` means "leave unchanged". Note the model has **no**
`stripe_subscription_id` field — the webhook handlers pass one, but the
pydantic model (default `extra` behaviour) silently drops it. -/
structure OrgSubUpdate where
  subscription_plan_id : Option Nat := none
  status : Option SubscriptionStatus := none
  current_period_start : Option Nat := none
  current_period_end : Option Nat := none
  trial_start : Option Nat := none
  trial_end : Option Nat := none
  cancel_at_period_end : Option Bool := none
  cancelled_at : Option Nat := none
  deriving DecidableEq, Repr

/-- Application of the non-`None` fields of an update to a subscription row
(`update_data = {k: v for ... if v is not None}` in
`update_organization_subscription`). -/
def applySubUpdate (s : OrgSubscription) (u : OrgSubUpdate) : OrgSubscription :=
  { s with
    subscription_plan_id :=
      match u.subscription_plan_id with
      | some p => some p
      | none => s.subscription_plan_id
    status := u.status.getD s.status
    current_period_start :=
      match u.current_period_start with
      | some x => some x
      | none => s.current_period_start
    current_period_end :=
      match u.current_period_end with
      | some x => some x
      | none => s.current_period_end
    trial_start :=
      match u.trial_start with
      | some x => some x
      | none => s.trial_start
    trial_end :=
      match u.trial_end with
      | some x => some x
      | none => s.trial_end
    cancel_at_period_end := u.cancel_at_period_end.getD s.cancel_at_period_end
    cancelled_at :=
      match u.cancelled_at with
      | some x => some x
      | none => s.cancelled_at }

/-- `BillingService.update_organization_subscription` (`service.py:215-257`):
applies the update to the organization's subscription row (returning `None`
when no row matches), then — only when the update carries a
`subscription_plan_id` and that plan exists — resets the organization's
credits to the new plan's `included_credits`. A raise from the reset
propagates. -/
def updateOrganizationSubscription (db : DB) (orgId : Nat) (u : OrgSubUpdate) :
    DB × Except BillingErr (Option OrgSubscription) :=
  match findSub db.subs orgId with
  | none => (db, .ok none)
  | some s =>
    let s' := applySubUpdate s u
    let db1 := { db with subs := setSub db.subs orgId s' }
    match u.subscription_plan_id with
    | none => (db1, .ok (some s'))
    | some pid =>
      match findPlan db1.plans pid with
      | none => (db1, .ok (some s'))
      | some newPlan =>
        match resetSubscriptionCredits db1 orgId newPlan.included_credits s'.id
            s'.current_period_end with
        | (db2, .ok _) => (db2, .ok (some s'))
        | (db2, .error e) => (db2, .error e)

/-- The subscription row inserted by `create_organization_subscription`
(`service.py:142-160` plus database column defaults): `trial` status and
trial dates when the plan's `trial_period_days` is truthy (non-`None` and
non-zero), else `active`; period bounds are not set at insert. -/
def newSubRow (db : DB) (orgId planId : Nat) (customer : String)
    (plan : SubscriptionPlan) : OrgSubscription :=
  let hasTrial : Bool :=
    match plan.trial_period_days with
    | some d => decide (d ≠ 0)
    | none => false
  { id := db.nextSubId
    organization_id := orgId
    subscription_plan_id := some planId
    stripe_customer_id := customer
    status := if hasTrial then .trial else .active
    current_period_start := none
    current_period_end := none
    trial_start := if hasTrial then some db.now else none
    trial_end := if hasTrial then plan.trial_period_days.map (db.now + ·) else none
    cancel_at_period_end := false
    cancelled_at := none }

/-- `BillingService.create_organization_subscription` (`service.py:109-181`),
for the webhook path, which always supplies a Stripe customer id (the
source's customer-creation branch for a missing customer id calls the
payment gateway and is never reached from the modelled handlers). Inserts
the subscription row, then allocates the plan's `included_credits` when
positive. -/
def createOrganizationSubscription (db : DB) (orgId : Nat) (planId : Nat)
    (stripeCustomerId : String) : DB × Except BillingErr OrgSubscription :=
  match findPlan db.plans planId with
  | none => (db, .error (.notFound "subscription plan not found"))
  | some plan =>
    let row := newSubRow db orgId planId stripeCustomerId plan
    let db1 := { db with subs := db.subs ++ [row], nextSubId := db.nextSubId + 1 }
    if plan.included_credits > 0 then
      match addSubscriptionCredits db1 orgId plan.included_credits row.id
          row.current_period_end with
      | (db2, .ok _) => (db2, .ok row)
      | (db2, .error e) => (db2, .error e)
    else
      (db1, .ok row)

/-- The fields of a Stripe `customer.subscription.*` event object that the
handlers read (`data.object` in `webhook_handler.py`); `price_id` is
`items.data[0].price.id`; `metadata_organization_id` is
`metadata.organization_id`. -/
structure StripeSubPayload where
  id : String
  customer : String
  metadata_organization_id : Option Nat
  price_id : String
  status : String
  current_period_start : Option Nat
  current_period_end : Option Nat
  trial_start : Option Nat
  trial_end : Option Nat
  cancel_at_period_end : Bool
  canceled_at : Option Nat
  deriving DecidableEq, Repr

/-- `_map_stripe_status` (`webhook_handler.py:513-525`). -/
def mapStripeStatus (s : String) : SubscriptionStatus :=
  if s = "trialing" then .trial
  else if s = "active" then .active
  else if s = "past_due" then .past_due
  else if s = "canceled" then .cancelled
  else if s = "unpaid" then .expired
  else if s = "incomplete" then .incomplete
  else if s = "incomplete_expired" then .incomplete_expired
  else .active

/-- The status/period/trial fields both branches of
`handle_subscription_created` copy from the event payload into the
`OrganizationSubscriptionUpdate` (period and trial dates only when present
in the payload; the `stripe_subscription_id` the source also passes is
dropped by the pydantic update model, which has no such field). -/
def syncFieldsUpdate (ev : StripeSubPayload) : OrgSubUpdate :=
  { status := some (mapStripeStatus ev.status)
    current_period_start := ev.current_period_start
    current_period_end := ev.current_period_end
    trial_start := ev.trial_start
    trial_end := ev.trial_end }

/-- `handle_subscription_created` (`webhook_handler.py:100-203`). With an
existing subscription row this is a plan-change update: downgrade detection
(`plan.included_credits < current_plan_credits`) sets
`cancel_at_period_end := true` on the update; the update carries the new
plan id, so `update_organization_subscription` also resets credits to the
new plan's allotment. Without one it creates the subscription (allocating
initial credits) and then syncs status/period/trial fields from the
payload — that follow-up update carries no plan id, so no credit reset. -/
def handleSubscriptionCreated (db : DB) (ev : StripeSubPayload) :
    DB × Except BillingErr Unit :=
  match ev.metadata_organization_id with
  | none => (db, .ok ())
  | some orgId =>
    match findPlanByPrice db.plans ev.price_id with
    | none => (db, .ok ())
    | some plan =>
      match findSub db.subs orgId with
      | some existing =>
        let currentPlanCredits : Int :=
          match existing.subscription_plan_id.bind (findPlan db.plans) with
          | some p => p.included_credits
          | none => 0
        let isDowngrade : Bool := plan.included_credits < currentPlanCredits
        let u : OrgSubUpdate :=
          { syncFieldsUpdate ev with
              subscription_plan_id := some plan.id
              cancel_at_period_end := if isDowngrade then some true else none }
        match updateOrganizationSubscription db orgId u with
        | (db1, .ok _) => (db1, .ok ())
        | (db1, .error e) => (db1, .error e)
      | none =>
        match createOrganizationSubscription db orgId plan.id ev.customer with
        | (db1, .error e) => (db1, .error e)
        | (db1, .ok _) =>
          match updateOrganizationSubscription db1 orgId (syncFieldsUpdate ev) with
          | (db2, .ok _) => (db2, .ok ())
          | (db2, .error e) => (db2, .error e)

/-- `handle_subscription_updated` (`webhook_handler.py:206-266`). The source
reads the current subscription and computes `plan_changed` / `is_downgrade`
here, but uses them only in log statements: they do not influence
`update_data`, which takes `cancel_at_period_end` from the event payload
and carries no `subscription_plan_id` (so no plan write and no credit
reset happen on this path). -/
def handleSubscriptionUpdated (db : DB) (ev : StripeSubPayload) :
    DB × Except BillingErr Unit :=
  match ev.metadata_organization_id with
  | none => (db, .ok ())
  | some orgId =>
    let u : OrgSubUpdate :=
      { status := some (mapStripeStatus ev.status)
        cancel_at_period_end := some ev.cancel_at_period_end
        current_period_start := ev.current_period_start
        current_period_end := ev.current_period_end
        cancelled_at := ev.canceled_at }
    match updateOrganizationSubscription db orgId u with
    | (db1, .ok _) => (db1, .ok ())
    | (db1, .error e) => (db1, .error e)

/-- Sum of the `amount` column over an organization's ledger rows. -/
def orgTxSum (txs : List CreditTx) (orgId : Nat) : Int :=
  ((txs.filter (fun t => t.organization_id = orgId)).map (·.amount)).sum

/-- Balance consistency over table contents: every organization's cached
`credit_balance` equals the sum of its ledger amounts. -/
def ConsistentL (orgs : List Org) (txs : List CreditTx) : Prop :=
  ∀ o ∈ orgs, o.credit_balance = orgTxSum txs o.id

/-- Balance consistency of a database state. -/
def Consistent (db : DB) : Prop :=
  ConsistentL db.orgs db.transactions

instance (orgs : List Org) (txs : List CreditTx) : Decidable (ConsistentL orgs txs) :=
  List.decidableBAll _ orgs

instance (db : DB) : Decidable (Consistent db) :=
  inferInstanceAs (Decidable (ConsistentL db.orgs db.transactions))

theorem orgTxSum_append (txs : List CreditTx) (t : CreditTx) (i : Nat) :
    orgTxSum (txs ++ [t]) i =
      orgTxSum txs i + (if t.organization_id = i then t.amount else 0) := by
  unfold orgTxSum
  rw [List.filter_append]
  by_cases h : t.organization_id = i
  · simp [h]
  · simp [h]

theorem consistentL_balance {orgs : List Org} {txs : List CreditTx} {i : Nat} {b : Int}
    (h : ConsistentL orgs txs) (hb : getBalance orgs i = some b) :
    b = orgTxSum txs i := by
  unfold getBalance at hb
  cases hf : orgs.find? (fun o => o.id = i) with
  | none => simp [hf] at hb
  | some o =>
    have hmem := List.mem_of_find?_eq_some hf
    have hid : o.id = i := by
      have := List.find?_some hf
      simpa using this
    simp [hf] at hb
    subst hb
    rw [← hid]
    exact h o hmem

/-- A balance write to `v` together with one appended ledger row of amount
`v - b` (where `b` was the read balance) preserves consistency. -/
theorem consistentL_write {orgs : List Org} {txs : List CreditTx}
    {i : Nat} {b v : Int} {tx : CreditTx}
    (h : ConsistentL orgs txs) (hb : getBalance orgs i = some b)
    (horg : tx.organization_id = i) (hamt : tx.amount = v - b) :
    ConsistentL (setBalance orgs i v) (txs ++ [tx]) := by
  intro o' ho'
  unfold setBalance at ho'
  rw [List.mem_map] at ho'
  obtain ⟨o, ho, rfl⟩ := ho'
  have hsum := consistentL_balance h hb
  by_cases hid : o.id = i
  · simp only [hid, if_true]
    rw [orgTxSum_append]
    simp only [horg, hid, if_true]
    rw [← hsum]
    omega
  · simp only [hid, if_false]
    rw [orgTxSum_append]
    have : ¬ (tx.organization_id = o.id) := by
      rw [horg]; exact fun hc => hid hc.symm
    simp only [this, if_false, add_zero]
    exact h o ho

/-- A sample database: one organization (id 1, zero balance, empty ledger),
one active credit event "api_call" costing 10, one plan. -/
def dbEx : DB :=
  { orgs := [{ id := 1, credit_balance := 0 }]
    transactions := []
    subs := []
    plans := [{ id := 3, stripe_price_id := "price_pro", included_credits := 100,
                trial_period_days := none, is_active := true }]
    events := [{ id := 5, name := "api_call", credit_cost := 10, is_active := true }]
    insertTxOk := true
    insertAttempts := 0
    nextTxId := 1
    nextSubId := 1
    now := 1000 }

/-- The state `dbEx` reaches after `_add_credits(org 1, 5, subscription, 7)`. -/
def dbExAfterAdd : DB :=
  { dbEx with
    orgs := [{ id := 1, credit_balance := 5 }]
    transactions := [{ id := 1, organization_id := 1, transaction_type := .earned,
                       amount := 5, balance_after := 5, source := .subscription,
                       source_id := some 7, credit_event_id := none,
                       expires_at := none, stripe_payment_intent_id := none,
                       description := none }]
    insertAttempts := 1
    nextTxId := 2 }

/-- C1: every completed ledger write (`_add_credits` and its two wrappers,
`reset_subscription_credits`, `consume_credits`) preserves the invariant
that each organization's stored `credit_balance` equals the sum of the
`amount` fields of its `CreditTransaction` rows. -/
theorem ledger_writes_preserve_balance_consistency (db : DB) (h : Consistent db) :
    (∀ orgId credits source sourceId expiresAt spi descr db' t,
        addCreditsImpl db orgId credits source sourceId expiresAt spi descr
          = (db', .ok t) → Consistent db') ∧
    (∀ orgId credits subId expiresAt db' t,
        addSubscriptionCredits db orgId credits subId expiresAt = (db', .ok t) →
        Consistent db') ∧
    (∀ orgId credits spi descr db' t,
        addPurchasedCredits db orgId credits spi descr = (db', .ok t) →
        Consistent db') ∧
    (∀ orgId credits subId expiresAt db' r,
        resetSubscriptionCredits db orgId credits subId expiresAt = (db', .ok r) →
        Consistent db') ∧
    (∀ req db' r, consumeCredits db req = (db', .ok r) → Consistent db') := by
  have hadd : ∀ orgId credits source sourceId expiresAt spi descr db' t,
      addCreditsImpl db orgId credits source sourceId expiresAt spi descr
        = (db', .ok t) → Consistent db' := by
    intro orgId credits source sourceId ea spi d db' t heq
    unfold addCreditsImpl at heq
    split at heq
    · simp at heq
    next b hb =>
      split at heq
      · simp at heq
      · unfold insertTx at heq
        by_cases hok : db.insertTxOk = true
        · simp [hok, Prod.mk.injEq] at heq
          obtain ⟨h1, -⟩ := heq
          subst h1
          refine consistentL_write h hb rfl ?_
          simp
        · simp [hok] at heq
  refine ⟨hadd, ?_, ?_, ?_, ?_⟩
  · intro orgId credits subId ea db' t heq
    exact hadd _ _ _ _ _ _ _ _ _ heq
  · intro orgId credits spi d db' t heq
    exact hadd _ _ _ _ _ _ _ _ _ heq
  · intro orgId credits subId ea db' r heq
    unfold resetSubscriptionCredits at heq
    split at heq
    · simp at heq
    next b hb =>
      simp only [] at heq
      split at heq
      next hzero =>
        simp only [Prod.mk.injEq] at heq
        obtain ⟨h1, -⟩ := heq
        subst h1
        exact h
      next hnz =>
        split at heq
        next msg hv =>
          simp [getValidationError, requiresSourceId, sourceWithoutId] at hv
        · unfold insertTx at heq
          by_cases hok : db.insertTxOk = true
          · simp [hok, Prod.mk.injEq] at heq
            obtain ⟨h1, -⟩ := heq
            subst h1
            refine consistentL_write h hb rfl ?_
            simp
          · simp [hok] at heq
  · intro req db' r heq
    unfold consumeCredits at heq
    split at heq
    · simp at heq
    next ev hev =>
      split at heq
      · simp at heq
      next b hb =>
        unfold consumeCreditsFrom at heq
        simp only [] at heq
        split at heq
        next hlt =>
          simp only [Prod.mk.injEq] at heq
          obtain ⟨h1, -⟩ := heq
          subst h1
          exact h
        next hge =>
          split at heq
          next msg hv =>
            simp [getValidationError, requiresSourceId, sourceWithoutId] at hv
          · unfold insertTx at heq
            by_cases hok : db.insertTxOk = true
            · simp [hok, Prod.mk.injEq] at heq
              obtain ⟨h1, -⟩ := heq
              subst h1
              refine consistentL_write h hb rfl ?_
              simp
            · simp [hok] at heq

/-- Witness for C1: in the sample database, a completed credit addition
leads to a consistent state. -/
theorem ledger_writes_preserve_balance_consistency_witness :
    Consistent dbExAfterAdd :=
  (ledger_writes_preserve_balance_consistency dbEx (by decide)).1
    1 5 .subscription (some 7) none none none dbExAfterAdd
    { id := 1, organization_id := 1, transaction_type := .earned,
      amount := 5, balance_after := 5, source := .subscription,
      source_id := some 7, credit_event_id := none, expires_at := none,
      stripe_payment_intent_id := none, description := none }
    (by decide)

/-- C2: `consume_credits` on insufficient funds — the balance is strictly
below the active event's cost times the quantity — returns
`success=false, credits_consumed=0, balance_after=current balance`,
raises no error, writes no transaction and leaves the database (hence the
organization's `credit_balance`) untouched. -/
theorem consume_credits_insufficient_funds (db : DB)
    (req : CreditConsumptionRequest) (ev : CreditEvent) (bal : Int)
    (hev : findActiveEvent db.events req.event_name = some ev)
    (hbal : getBalance db.orgs req.organization_id = some bal)
    (hlt : bal < ev.credit_cost * req.quantity) :
    consumeCredits db req =
      (db, .ok { success := false, credits_consumed := 0,
                 balance_after := bal, transaction_id := 0 }) := by
  unfold consumeCredits consumeCreditsFrom
  rw [hev, hbal]
  simp [hlt]

/-- Witness for C2: balance 5, event cost 10, quantity 1. -/
theorem consume_credits_insufficient_funds_witness :
    consumeCredits { dbEx with orgs := [{ id := 1, credit_balance := 5 }] }
        { organization_id := 1, event_name := "api_call", quantity := 1 } =
      ({ dbEx with orgs := [{ id := 1, credit_balance := 5 }] },
       .ok { success := false, credits_consumed := 0, balance_after := 5,
             transaction_id := 0 }) :=
  consume_credits_insufficient_funds _ _
    { id := 5, name := "api_call", credit_cost := 10, is_active := true } 5
    (by decide) (by decide) (by decide)

theorem getBalance_setBalance_self {orgs : List Org} {i : Nat} {b : Int} (v : Int)
    (hb : getBalance orgs i = some b) :
    getBalance (setBalance orgs i v) i = some v := by
  induction orgs with
  | nil => simp [getBalance] at hb
  | cons o rest ih =>
    by_cases h : o.id = i
    · simp [getBalance, setBalance, List.find?_cons, h]
    · have hb' : getBalance rest i = some b := by
        simpa [getBalance, List.find?_cons, h] using hb
      simpa [getBalance, setBalance, List.find?_cons, h] using ih hb'

/-- `reset_subscription_credits` when the balance already equals the target:
no write at all, `None` returned. -/
theorem reset_noop {db : DB} {orgId : Nat} {target : Int} (subId : Nat)
    (ea : Option Nat) (hb : getBalance db.orgs orgId = some target) :
    resetSubscriptionCredits db orgId target subId ea = (db, .ok none) := by
  unfold resetSubscriptionCredits
  rw [hb]
  simp

/-- `reset_subscription_credits` when the balance differs from the target:
the balance is set to exactly the target and one adjusting transaction
(amount = target − balance, `balance_after` = target) is appended. -/
theorem reset_write {db : DB} {orgId : Nat} {target : Int} {subId : Nat}
    {ea : Option Nat} {bal : Int}
    (hb : getBalance db.orgs orgId = some bal) (hins : db.insertTxOk = true)
    (hne : bal ≠ target) :
    ∃ tx : CreditTx,
      resetSubscriptionCredits db orgId target subId ea =
        ({ db with
            orgs := setBalance db.orgs orgId target
            transactions := db.transactions ++ [tx]
            insertAttempts := db.insertAttempts + 1
            nextTxId := db.nextTxId + 1 }, .ok (some tx)) ∧
      tx.organization_id = orgId ∧
      tx.amount = target - bal ∧
      tx.transaction_type =
        (if target - bal > 0 then TransactionType.earned else TransactionType.consumed) ∧
      tx.balance_after = target ∧
      tx.source = TransactionSource.subscription ∧
      tx.source_id = some subId := by
  have hval : getValidationError .subscription (some subId) = none := by
    simp [getValidationError, requiresSourceId, sourceWithoutId]
  unfold resetSubscriptionCredits insertTx
  rw [hb]
  have hne' : ¬ (target - bal = 0) := by omega
  simp only [hne', if_false, hval]
  rw [if_pos hins]
  exact ⟨_, rfl, rfl, rfl, rfl, rfl, rfl, rfl⟩

/-- A seed ledger row giving organization 1 an opening balance (a valid
`admin_adjustment` transaction, so the seeded states satisfy the balance
invariant). -/
def seedTx (amt : Int) : CreditTx :=
  { id := 1, organization_id := 1, transaction_type := .earned, amount := amt,
    balance_after := amt, source := .admin_adjustment, source_id := none,
    credit_event_id := none, expires_at := none, stripe_payment_intent_id := none,
    description := none }

/-- The sample database with organization 1 holding balance `amt`. -/
def dbBal (amt : Int) : DB :=
  { dbEx with orgs := [{ id := 1, credit_balance := amt }],
              transactions := [seedTx amt], nextTxId := 2 }

/-- C3 counterexample: with the balance already at the target (5), two
consecutive `reset_subscription_credits(org 1, 5)` calls with no other
mutation in between write **zero** new transactions — not "exactly one"
as claimed: the first call is already a no-op. -/
theorem reset_credits_twice_zero_transactions :
    (resetSubscriptionCredits
      ((resetSubscriptionCredits (dbBal 5) 1 5 7 none).1)
      1 5 7 none).1.transactions.length = (dbBal 5).transactions.length ∧
    ¬ ((resetSubscriptionCredits
        ((resetSubscriptionCredits (dbBal 5) 1 5 7 none).1)
        1 5 7 none).1.transactions.length = (dbBal 5).transactions.length + 1) := by
  decide

/-- C3 (amended): a `reset_subscription_credits(org, X)` call when the
balance already equals `X` performs no write and returns `None`; two
consecutive resets to `X` with no other mutation in between produce **at
most** one transaction — exactly one when the starting balance differs
from `X`, zero otherwise — and the second call is always a no-op. -/
theorem reset_credits_idempotent (db : DB) (orgId : Nat) (target : Int)
    (subId : Nat) (ea : Option Nat) (bal : Int)
    (hb : getBalance db.orgs orgId = some bal) (hins : db.insertTxOk = true) :
    (bal = target →
      resetSubscriptionCredits db orgId target subId ea = (db, .ok none)) ∧
    resetSubscriptionCredits (resetSubscriptionCredits db orgId target subId ea).1
        orgId target subId ea =
      ((resetSubscriptionCredits db orgId target subId ea).1, .ok none) ∧
    (resetSubscriptionCredits db orgId target subId ea).1.transactions.length =
      db.transactions.length + (if bal = target then 0 else 1) := by
  refine ⟨fun hbt => by subst hbt; exact reset_noop subId ea hb, ?_, ?_⟩
  · by_cases hbt : bal = target
    · subst hbt
      rw [reset_noop subId ea hb]
      exact reset_noop subId ea hb
    · obtain ⟨tx, heq, -, -, -, -, -, -⟩ := reset_write hb hins hbt
      rw [heq]
      exact reset_noop subId ea (getBalance_setBalance_self target hb)
  · by_cases hbt : bal = target
    · subst hbt
      rw [reset_noop subId ea hb]
      simp
    · obtain ⟨tx, heq, -, -, -, -, -, -⟩ := reset_write hb hins hbt
      rw [heq]
      simp [hbt]

/-- Witness for C3 (amended): starting from balance 5 with target 3, the
second consecutive reset is a no-op. -/
theorem reset_credits_idempotent_witness :
    resetSubscriptionCredits (resetSubscriptionCredits (dbBal 5) 1 3 7 none).1
        1 3 7 none =
      ((resetSubscriptionCredits (dbBal 5) 1 3 7 none).1, .ok none) :=
  (reset_credits_idempotent (dbBal 5) 1 3 7 none 5 (by decide) (by decide)).2.1

/-- C4: `_add_credits` enforces the `source`/`source_id` pairing table
exactly: a source in `SOURCES_WITHOUT_ID` (`expiry`, `admin_adjustment`)
with a non-null `source_id` raises a `ValidationError`; a source in
`SOURCES_REQUIRING_ID` (`subscription`, `purchase`, `event_consumption`,
`refund`) with a null `source_id` raises a `ValidationError`; any pairing
the table accepts succeeds. -/
theorem add_credits_pairing_enforced (db : DB) (orgId : Nat) (credits : Int)
    (sourceId : Option Nat) (ea : Option Nat) (spi d : Option String) (bal : Int)
    (hb : getBalance db.orgs orgId = some bal) (hins : db.insertTxOk = true) :
    ∀ source : TransactionSource,
      (sourceWithoutId source = true → sourceId ≠ none →
        ∃ msg, (addCreditsImpl db orgId credits source sourceId ea spi d).2 =
          .error (.validation msg)) ∧
      (requiresSourceId source = true → sourceId = none →
        ∃ msg, (addCreditsImpl db orgId credits source sourceId ea spi d).2 =
          .error (.validation msg)) ∧
      (getValidationError source sourceId = none →
        ∃ t, (addCreditsImpl db orgId credits source sourceId ea spi d).2 = .ok t) := by
  intro source
  cases source <;> cases sourceId <;>
    simp [addCreditsImpl, insertTx, getValidationError, requiresSourceId,
      sourceWithoutId, hb, hins]

/-- Witness for C4: `source=purchase` with a non-null `source_id`
succeeds on the sample database. -/
theorem add_credits_pairing_enforced_witness :
    ∃ t, (addCreditsImpl dbEx 1 5 .purchase (some 3) none none none).2 = .ok t :=
  ((add_credits_pairing_enforced dbEx 1 5 (some 3) none none none 0
      (by decide) (by decide)) .purchase).2.2 (by decide)

/-- C5: when the balance differs from the target,
`reset_subscription_credits` sets the balance to exactly the target and
records a single transaction with `amount = target - balance`,
`transaction_type` `earned` for a positive delta and `consumed` for a
negative one, and `balance_after = target`. -/
theorem reset_sets_exact_target (db : DB) (orgId : Nat) (target : Int)
    (subId : Nat) (ea : Option Nat) (bal : Int)
    (hb : getBalance db.orgs orgId = some bal) (hins : db.insertTxOk = true)
    (hne : bal ≠ target) :
    ∃ tx : CreditTx,
      resetSubscriptionCredits db orgId target subId ea =
        ({ db with
            orgs := setBalance db.orgs orgId target
            transactions := db.transactions ++ [tx]
            insertAttempts := db.insertAttempts + 1
            nextTxId := db.nextTxId + 1 }, .ok (some tx)) ∧
      getBalance (setBalance db.orgs orgId target) orgId = some target ∧
      tx.amount = target - bal ∧
      tx.transaction_type =
        (if target - bal > 0 then TransactionType.earned
         else TransactionType.consumed) ∧
      tx.balance_after = target := by
  obtain ⟨tx, heq, -, hamt, hty, hba, -, -⟩ := reset_write hb hins hne
  exact ⟨tx, heq, getBalance_setBalance_self target hb, hamt, hty, hba⟩

/-- Witness for C5: the downgrade scenario — balance 1000, reset to the
new plan allotment 200 — leaves the balance at exactly 200. -/
theorem reset_sets_exact_target_witness :
    getBalance ((resetSubscriptionCredits (dbBal 1000) 1 200 7 none).1).orgs 1 =
      some 200 := by
  obtain ⟨tx, heq, hbal, -, -, -⟩ :=
    reset_sets_exact_target (dbBal 1000) 1 200 7 none 1000
      (by decide) (by decide) (by decide)
  rw [heq]
  exact hbal

/-- C9: `add_purchased_credits` always passes `source=purchase` with
`source_id=None`, so the `CreditTransactionCreate` validation raises on
every call — *after* the organization balance has already been
incremented by the purchased amount. The call therefore always leaves the
balance increased with no transaction row inserted, and nothing rolls the
balance write back. -/
theorem add_purchased_credits_always_raises (db : DB) (orgId : Nat)
    (credits : Int) (spi : String) (d : Option String) (bal : Int)
    (hb : getBalance db.orgs orgId = some bal) :
    ∃ msg, addPurchasedCredits db orgId credits spi d =
        ({ db with orgs := setBalance db.orgs orgId (bal + credits) },
         .error (.validation msg)) ∧
      getBalance (setBalance db.orgs orgId (bal + credits)) orgId =
        some (bal + credits) := by
  have hval : getValidationError .purchase none =
      some "transaction source requires source_id" := by
    simp [getValidationError, requiresSourceId]
  unfold addPurchasedCredits addCreditsImpl
  rw [hb]
  simp only [hval]
  exact ⟨_, rfl, getBalance_setBalance_self _ hb⟩

/-- Witness for C9: a checkout-completed credit purchase of 50 credits on
the sample database raises after bumping the balance from 0 to 50. -/
theorem add_purchased_credits_always_raises_witness :
    ∃ msg, addPurchasedCredits dbEx 1 50 "pi_1" none =
        ({ dbEx with orgs := setBalance dbEx.orgs 1 (0 + 50) },
         .error (.validation msg)) ∧
      getBalance (setBalance dbEx.orgs 1 (0 + 50)) 1 = some (0 + 50) :=
  add_purchased_credits_always_raises dbEx 1 50 "pi_1" none 0 (by decide)

/-- C7: across the three ledger write paths, a failure after the balance
write is surfaced, never swallowed, and nothing is retried: every raising
call leaves the transaction log untouched (the partial state consists of
the balance write alone, reported by the propagated error) and attempts
the `credit_transactions` insert at most once; and when that insert fails
no call reports success after writing the balance — the only successful
outcomes in that regime are the pure no-op paths, which leave the
database completely unchanged. -/
theorem ledger_partial_write_failures_surface (db : DB) :
    (∀ orgId credits source sourceId ea spi d db' e,
        addCreditsImpl db orgId credits source sourceId ea spi d =
          (db', .error e) →
        db'.transactions = db.transactions ∧
        db'.insertAttempts ≤ db.insertAttempts + 1) ∧
    (∀ orgId credits source sourceId ea spi d db' t,
        db.insertTxOk = false →
        addCreditsImpl db orgId credits source sourceId ea spi d =
          (db', .ok t) → False) ∧
    (∀ orgId credits subId ea db' e,
        resetSubscriptionCredits db orgId credits subId ea = (db', .error e) →
        db'.transactions = db.transactions ∧
        db'.insertAttempts ≤ db.insertAttempts + 1) ∧
    (∀ orgId credits subId ea db' r,
        db.insertTxOk = false →
        resetSubscriptionCredits db orgId credits subId ea = (db', .ok r) →
        db' = db) ∧
    (∀ req db' e,
        consumeCredits db req = (db', .error e) →
        db'.transactions = db.transactions ∧
        db'.insertAttempts ≤ db.insertAttempts + 1) ∧
    (∀ req db' r,
        db.insertTxOk = false →
        consumeCredits db req = (db', .ok r) → db' = db) := by
  refine ⟨?_, ?_, ?_, ?_, ?_, ?_⟩
  · intro orgId credits source sourceId ea spi d db' e heq
    unfold addCreditsImpl at heq
    split at heq
    · simp only [Prod.mk.injEq] at heq
      obtain ⟨h1, -⟩ := heq
      subst h1
      exact ⟨rfl, by simp⟩
    next b hb =>
      split at heq
      · simp only [Prod.mk.injEq] at heq
        obtain ⟨h1, -⟩ := heq
        subst h1
        exact ⟨rfl, by simp⟩
      · unfold insertTx at heq
        by_cases hok : db.insertTxOk = true
        · simp [hok] at heq
        · simp only [hok, Bool.false_eq_true, if_false, Prod.mk.injEq] at heq
          obtain ⟨h1, -⟩ := heq
          subst h1
          exact ⟨rfl, by simp⟩
  · intro orgId credits source sourceId ea spi d db' t hins heq
    unfold addCreditsImpl at heq
    split at heq
    · simp at heq
    next b hb =>
      split at heq
      · simp at heq
      · unfold insertTx at heq
        simp [hins] at heq
  · intro orgId credits subId ea db' e heq
    unfold resetSubscriptionCredits at heq
    split at heq
    · simp only [Prod.mk.injEq] at heq
      obtain ⟨h1, -⟩ := heq
      subst h1
      exact ⟨rfl, by simp⟩
    next b hb =>
      simp only [] at heq
      split at heq
      · simp at heq
      · split at heq
        next msg hv =>
          simp [getValidationError, requiresSourceId, sourceWithoutId] at hv
        · unfold insertTx at heq
          by_cases hok : db.insertTxOk = true
          · simp [hok] at heq
          · simp only [hok, Bool.false_eq_true, if_false, Prod.mk.injEq] at heq
            obtain ⟨h1, -⟩ := heq
            subst h1
            exact ⟨rfl, by simp⟩
  · intro orgId credits subId ea db' r hins heq
    unfold resetSubscriptionCredits at heq
    split at heq
    · simp at heq
    next b hb =>
      simp only [] at heq
      split at heq
      · simp only [Prod.mk.injEq, Except.ok.injEq] at heq
        obtain ⟨h1, -⟩ := heq
        exact h1.symm
      · split at heq
        next msg hv =>
          simp [getValidationError, requiresSourceId, sourceWithoutId] at hv
        · unfold insertTx at heq
          simp [hins] at heq
  · intro req db' e heq
    unfold consumeCredits at heq
    split at heq
    · simp only [Prod.mk.injEq] at heq
      obtain ⟨h1, -⟩ := heq
      subst h1
      exact ⟨rfl, by simp⟩
    next ev hev =>
      split at heq
      · simp only [Prod.mk.injEq] at heq
        obtain ⟨h1, -⟩ := heq
        subst h1
        exact ⟨rfl, by simp⟩
      next b hb =>
        unfold consumeCreditsFrom at heq
        simp only [] at heq
        split at heq
        · simp at heq
        · split at heq
          next msg hv =>
            simp [getValidationError, requiresSourceId, sourceWithoutId] at hv
          · unfold insertTx at heq
            by_cases hok : db.insertTxOk = true
            · simp [hok] at heq
            · simp only [hok, Bool.false_eq_true, if_false, Prod.mk.injEq] at heq
              obtain ⟨h1, -⟩ := heq
              subst h1
              exact ⟨rfl, by simp⟩
  · intro req db' r hins heq
    unfold consumeCredits at heq
    split at heq
    · simp at heq
    next ev hev =>
      split at heq
      · simp at heq
      next b hb =>
        unfold consumeCreditsFrom at heq
        simp only [] at heq
        split at heq
        · simp only [Prod.mk.injEq, Except.ok.injEq] at heq
          obtain ⟨h1, -⟩ := heq
          exact h1.symm
        · split at heq
          next msg hv =>
            simp [getValidationError, requiresSourceId, sourceWithoutId] at hv
          · unfold insertTx at heq
            simp [hins] at heq

/-- The sample database with the `credit_transactions` insert failing. -/
def dbFail : DB := { dbEx with insertTxOk := false }

/-- The state `dbFail` is left in by a failed `_add_credits` call: balance
written, no transaction row, one insert attempt. -/
def dbFailAfterAdd : DB :=
  { dbFail with orgs := [{ id := 1, credit_balance := 5 }], insertAttempts := 1 }

/-- Witness for C7: on the sample database with a failing transaction-log
insert, `_add_credits` raises, leaves the ledger untouched, and attempted
the insert exactly once. -/
theorem ledger_partial_write_failures_surface_witness :
    dbFailAfterAdd.transactions = dbFail.transactions ∧
    dbFailAfterAdd.insertAttempts ≤ dbFail.insertAttempts + 1 :=
  (ledger_partial_write_failures_surface dbFail).1 1 5 .subscription (some 7)
    none none none dbFailAfterAdd
    (.insertFailed "failed to create credit transaction") (by decide)

/-- The organization-1 consumption request for one `api_call`. -/
def raceReq : CreditConsumptionRequest :=
  { organization_id := 1, event_name := "api_call", quantity := 1 }

/-- The `api_call` credit event of the sample database. -/
def apiEvent : CreditEvent :=
  { id := 5, name := "api_call", credit_cost := 10, is_active := true }

/-- C10 evaluation: two concurrent `consume_credits` calls for
organization 1, whose balance (10) exactly equals the event cost, under
the interleaving in which both coroutines perform their event lookup and
balance read before either performs its writes (every `await ...execute()`
is a suspension point, and nothing in the code locks or conditions the
write on the previously read value). Each write phase then runs from the
stale read 10: **both** calls return `success=true`, 20 credits are
debited from a balance of 10, and the final state violates the balance
invariant (cached balance 0, ledger sum −10) — refuting
"exactly one call succeeds". -/
theorem consume_credits_race_both_succeed :
    findActiveEvent (dbBal 10).events "api_call" = some apiEvent ∧
    getBalance (dbBal 10).orgs 1 = some 10 ∧
    (consumeCreditsFrom (dbBal 10) raceReq apiEvent 10).2 =
      .ok { success := true, credits_consumed := 10, balance_after := 0,
            transaction_id := 2 } ∧
    (consumeCreditsFrom (consumeCreditsFrom (dbBal 10) raceReq apiEvent 10).1
        raceReq apiEvent 10).2 =
      .ok { success := true, credits_consumed := 10, balance_after := 0,
            transaction_id := 3 } ∧
    getBalance (consumeCreditsFrom
        (consumeCreditsFrom (dbBal 10) raceReq apiEvent 10).1
        raceReq apiEvent 10).1.orgs 1 = some 0 ∧
    orgTxSum (consumeCreditsFrom
        (consumeCreditsFrom (dbBal 10) raceReq apiEvent 10).1
        raceReq apiEvent 10).1.transactions 1 = -10 ∧
    ¬ Consistent (consumeCreditsFrom
        (consumeCreditsFrom (dbBal 10) raceReq apiEvent 10).1
        raceReq apiEvent 10).1 := by
  decide

/-- Plan A of the downgrade scenario: 1000 included credits. -/
def planA : SubscriptionPlan :=
  { id := 10, stripe_price_id := "price_A", included_credits := 1000,
    trial_period_days := none, is_active := true }

/-- Plan B of the downgrade scenario: 200 included credits. -/
def planB : SubscriptionPlan :=
  { id := 11, stripe_price_id := "price_B", included_credits := 200,
    trial_period_days := none, is_active := true }

/-- Organization 1's active subscription on plan A. -/
def subOnA : OrgSubscription :=
  { id := 20, organization_id := 1, subscription_plan_id := some 10,
    stripe_customer_id := "cus_1", status := .active,
    current_period_start := some 100, current_period_end := some 200,
    trial_start := none, trial_end := none, cancel_at_period_end := false,
    cancelled_at := none }

/-- Database for the downgrade scenario: organization 1 on plan A with
balance 1000 (matching plan A's allotment), plans A and B on catalog. -/
def dbDowngrade : DB :=
  { dbBal 1000 with subs := [subOnA], plans := [planA, planB] }

/-- The `customer.subscription.updated` payload switching organization 1
to plan B (price `price_B`): a plan change to a plan with fewer included
credits, with the gateway payload carrying `cancel_at_period_end=false`
as it does for an in-place plan change. -/
def evToPlanB : StripeSubPayload :=
  { id := "sub_1", customer := "cus_1", metadata_organization_id := some 1,
    price_id := "price_B", status := "active",
    current_period_start := some 200, current_period_end := some 300,
    trial_start := none, trial_end := none, cancel_at_period_end := false,
    canceled_at := none }

/-- C6 evaluation at the failing input: processing the downgrade via
`handle_subscription_updated` completes without error, the event is a
downgrade by the code's own detection (plan B found by price, 200 < 1000),
yet the resulting subscription still has `cancel_at_period_end = false`
(the handler computes `is_downgrade` but only logs it, taking the flag
from the payload instead) — and the plan id is not even updated, so no
credit reset runs and the ledger is untouched. -/
theorem subscription_updated_downgrade_keeps_grace_flag_false :
    findPlanByPrice dbDowngrade.plans evToPlanB.price_id = some planB ∧
    (subOnA.subscription_plan_id.bind (findPlan dbDowngrade.plans)
      = some planA) ∧
    planB.included_credits < planA.included_credits ∧
    (handleSubscriptionUpdated dbDowngrade evToPlanB).2 = .ok () ∧
    (findSub (handleSubscriptionUpdated dbDowngrade evToPlanB).1.subs 1).map
      (·.cancel_at_period_end) = some false ∧
    (findSub (handleSubscriptionUpdated dbDowngrade evToPlanB).1.subs 1).map
      (·.subscription_plan_id) = some (some 10) ∧
    (handleSubscriptionUpdated dbDowngrade evToPlanB).1.transactions =
      dbDowngrade.transactions ∧
    getBalance (handleSubscriptionUpdated dbDowngrade evToPlanB).1.orgs 1 =
      some 1000 := by
  decide

theorem findSub_append_last {l : List OrgSubscription} {i : Nat}
    (h : findSub l i = none) {s : OrgSubscription} (hs : s.organization_id = i) :
    findSub (l ++ [s]) i = some s := by
  unfold findSub at h ⊢
  rw [List.find?_append, h]
  simp [List.find?, hs]

theorem setSub_of_none {l : List OrgSubscription} {i : Nat}
    (h : findSub l i = none) (s : OrgSubscription) : setSub l i s = l := by
  induction l with
  | nil => rfl
  | cons x xs ih =>
    have hx : ¬ (x.organization_id = i) := by
      intro hc
      unfold findSub at h
      rw [List.find?_cons_of_pos _ (by simpa using hc)] at h
      exact Option.noConfusion h
    have hxs : findSub xs i = none := by
      unfold findSub at h ⊢
      rwa [List.find?_cons_of_neg _ (by simpa using hx)] at h
    have ih' := ih hxs
    unfold setSub at ih' ⊢
    simp only [List.map_cons, hx, if_false, ih']

theorem setSub_append_last {l : List OrgSubscription} {i : Nat}
    (h : findSub l i = none) {s : OrgSubscription} (hs : s.organization_id = i)
    (s' : OrgSubscription) : setSub (l ++ [s]) i s' = l ++ [s'] := by
  unfold setSub
  rw [List.map_append]
  have h1 := setSub_of_none h s'
  unfold setSub at h1
  rw [h1]
  simp [hs]

/-- Re-applying the payload-derived update of the plan-change branch to a
row that already absorbed the create-branch sync (and already carries the
plan id) changes nothing. -/
theorem applySubUpdate_resync (row : OrgSubscription) (ev : StripeSubPayload)
    (pid : Nat) (hpid : row.subscription_plan_id = some pid) :
    applySubUpdate (applySubUpdate row (syncFieldsUpdate ev))
      { syncFieldsUpdate ev with
          subscription_plan_id := some pid
          cancel_at_period_end := none } =
    applySubUpdate row (syncFieldsUpdate ev) := by
  unfold applySubUpdate syncFieldsUpdate
  cases ev.current_period_start <;> cases ev.current_period_end <;>
    cases ev.trial_start <;> cases ev.trial_end <;>
      simp [hpid, Option.getD]

/-- Characterization of `handle_subscription_created` for an organization
with **no** existing subscription and a zero credit balance: the handler
succeeds, leaves the plan catalog alone, appends exactly one subscription
row (the freshly created row with the payload fields synced onto it), and
leaves the balance at the plan's `included_credits`. -/
theorem handle_created_fresh (db : DB) (ev : StripeSubPayload)
    (orgId : Nat) (plan : SubscriptionPlan)
    (horg : ev.metadata_organization_id = some orgId)
    (hplan : findPlanByPrice db.plans ev.price_id = some plan)
    (hpid : findPlan db.plans plan.id = some plan)
    (hnosub : findSub db.subs orgId = none)
    (hbal : getBalance db.orgs orgId = some 0)
    (hins : db.insertTxOk = true)
    (hnn : 0 ≤ plan.included_credits) :
    (handleSubscriptionCreated db ev).2 = .ok () ∧
    (handleSubscriptionCreated db ev).1.plans = db.plans ∧
    (handleSubscriptionCreated db ev).1.subs = db.subs ++
      [applySubUpdate (newSubRow db orgId plan.id ev.customer plan)
        (syncFieldsUpdate ev)] ∧
    getBalance (handleSubscriptionCreated db ev).1.orgs orgId =
      some plan.included_credits := by
  have hval : ∀ x : Nat, getValidationError .subscription (some x) = none := by
    intro x
    simp [getValidationError, requiresSourceId, sourceWithoutId]
  have hfs : findSub (db.subs ++ [newSubRow db orgId plan.id ev.customer plan])
      orgId = some (newSubRow db orgId plan.id ev.customer plan) :=
    findSub_append_last hnosub rfl
  have hset : ∀ s',
      setSub (db.subs ++ [newSubRow db orgId plan.id ev.customer plan]) orgId s' =
        db.subs ++ [s'] :=
    fun s' => setSub_append_last hnosub rfl s'
  have hplannone : (syncFieldsUpdate ev).subscription_plan_id = none := rfl
  by_cases hpos : plan.included_credits > 0
  · have hbal2 : getBalance (setBalance db.orgs orgId plan.included_credits)
        orgId = some plan.included_credits :=
      getBalance_setBalance_self plan.included_credits hbal
    unfold handleSubscriptionCreated createOrganizationSubscription
      addSubscriptionCredits addCreditsImpl insertTx
      updateOrganizationSubscription
    simp only [horg, hplan, hnosub, hpid, hbal, hins, hval, hfs, hset,
      hplannone, hpos, if_true, eq_self_iff_true, zero_add, hbal2,
      and_self, and_true, true_and]
  · have hzero : plan.included_credits = 0 := by omega
    have hbal2 : getBalance db.orgs orgId = some plan.included_credits := by
      rw [hzero]
      exact hbal
    unfold handleSubscriptionCreated createOrganizationSubscription
      updateOrganizationSubscription
    simp only [horg, hplan, hnosub, hpid, hpos, if_false, hfs, hset, hplannone,
      hbal2, and_self, and_true, true_and]

/-- Characterization of `handle_subscription_created` when the
organization already has a subscription row whose plan equals the plan the
payload maps to: `is_downgrade` is false, so the handler reduces to the
plan-carrying subscription update. -/
theorem handle_created_existing (db : DB) (ev : StripeSubPayload)
    (orgId : Nat) (plan : SubscriptionPlan) (s : OrgSubscription)
    (horg : ev.metadata_organization_id = some orgId)
    (hplan : findPlanByPrice db.plans ev.price_id = some plan)
    (hsub : findSub db.subs orgId = some s)
    (hcur : s.subscription_plan_id.bind (findPlan db.plans) = some plan) :
    handleSubscriptionCreated db ev =
      (match updateOrganizationSubscription db orgId
          { syncFieldsUpdate ev with
              subscription_plan_id := some plan.id
              cancel_at_period_end := none } with
       | (db1, .ok _) => (db1, .ok ())
       | (db1, .error e) => (db1, .error e)) := by
  unfold handleSubscriptionCreated
  simp only [horg, hplan, hsub, hcur, lt_self_iff_false, decide_False,
    Bool.false_eq_true, if_false]

/-- C8 (amended): delivering the same `subscription created` payload twice
with no intervening mutation, for an organization whose credit balance at
the first delivery is **zero** (so that the balance after the first
delivery equals the plan's `included_credits`), results in the same final
subscription state and appends no new credit transaction: the second
delivery returns the first delivery's database completely unchanged. (With
a nonzero prior balance the second delivery instead resets the balance to
the plan's allotment and appends one adjusting transaction.) -/
theorem subscription_created_replay_safe (db : DB) (ev : StripeSubPayload)
    (orgId : Nat) (plan : SubscriptionPlan)
    (horg : ev.metadata_organization_id = some orgId)
    (hplan : findPlanByPrice db.plans ev.price_id = some plan)
    (hpid : findPlan db.plans plan.id = some plan)
    (hnosub : findSub db.subs orgId = none)
    (hbal : getBalance db.orgs orgId = some 0)
    (hins : db.insertTxOk = true)
    (hnn : 0 ≤ plan.included_credits) :
    (handleSubscriptionCreated db ev).2 = .ok () ∧
    handleSubscriptionCreated (handleSubscriptionCreated db ev).1 ev =
      ((handleSubscriptionCreated db ev).1, .ok ()) := by
  obtain ⟨hok, hplans, hsubs, hbal1⟩ :=
    handle_created_fresh db ev orgId plan horg hplan hpid hnosub hbal hins hnn
  refine ⟨hok, ?_⟩
  set db1 := (handleSubscriptionCreated db ev).1 with hdb1
  set s1 := applySubUpdate (newSubRow db orgId plan.id ev.customer plan)
    (syncFieldsUpdate ev) with hs1def
  have hs1org : s1.organization_id = orgId := rfl
  have hs1pid : s1.subscription_plan_id = some plan.id := rfl
  have hplan1 : findPlanByPrice db1.plans ev.price_id = some plan := by
    rw [hplans]
    exact hplan
  have hfs1 : findSub db1.subs orgId = some s1 := by
    rw [hsubs]
    exact findSub_append_last hnosub hs1org
  have hcur1 : s1.subscription_plan_id.bind (findPlan db1.plans) = some plan := by
    rw [hs1pid, hplans]
    simpa using hpid
  have hresync : applySubUpdate s1
      { syncFieldsUpdate ev with
          subscription_plan_id := some plan.id
          cancel_at_period_end := none } = s1 := by
    rw [hs1def]
    exact applySubUpdate_resync _ ev plan.id rfl
  have hsetsub : setSub db1.subs orgId s1 = db1.subs := by
    rw [hsubs]
    exact setSub_append_last hnosub hs1org s1
  have hreset : resetSubscriptionCredits db1 orgId plan.included_credits s1.id
      s1.current_period_end = (db1, .ok none) := reset_noop _ _ hbal1
  have hfind1 : findPlan db1.plans plan.id = some plan := by
    rw [hplans]
    exact hpid
  have hupd : updateOrganizationSubscription db1 orgId
      { syncFieldsUpdate ev with
          subscription_plan_id := some plan.id
          cancel_at_period_end := none } = (db1, .ok (some s1)) := by
    unfold updateOrganizationSubscription
    simp only [hfs1, hresync, hsetsub, hfind1, hreset]
  rw [handle_created_existing db1 ev orgId plan s1 horg hplan1 hfs1 hcur1, hupd]

/-- A `customer.subscription.created` payload for organization 1 on the
sample plan (`price_pro`, 100 included credits). -/
def evCreate : StripeSubPayload :=
  { id := "sub_2", customer := "cus_9", metadata_organization_id := some 1,
    price_id := "price_pro", status := "active",
    current_period_start := some 100, current_period_end := some 200,
    trial_start := none, trial_end := none, cancel_at_period_end := false,
    canceled_at := none }

/-- C8 counterexample: for an organization whose balance before the first
delivery is 50 (not zero), delivering the same `subscription created`
payload twice does **not** leave the ledger transaction count unchanged
and does not reproduce the single-delivery final state: the second
delivery lands in the plan-change branch, which resets the balance from
150 to the plan allotment 100 and appends one more transaction. -/
theorem subscription_created_replay_counterexample :
    (handleSubscriptionCreated (dbBal 50) evCreate).2 = .ok () ∧
    (handleSubscriptionCreated (dbBal 50) evCreate).1.transactions.length = 2 ∧
    (handleSubscriptionCreated
      (handleSubscriptionCreated (dbBal 50) evCreate).1 evCreate).2 = .ok () ∧
    (DB.transactions (handleSubscriptionCreated
      (handleSubscriptionCreated (dbBal 50) evCreate).1 evCreate).1).length = 3 ∧
    getBalance (handleSubscriptionCreated (dbBal 50) evCreate).1.orgs 1 =
      some 150 ∧
    getBalance (handleSubscriptionCreated
      (handleSubscriptionCreated (dbBal 50) evCreate).1 evCreate).1.orgs 1 =
      some 100 := by
  decide

/-- Witness for C8 (amended): on the sample database (balance zero, plan
`price_pro`), the second delivery of the same payload is a complete no-op. -/
theorem subscription_created_replay_safe_witness :
    handleSubscriptionCreated (handleSubscriptionCreated dbEx evCreate).1
        evCreate =
      ((handleSubscriptionCreated dbEx evCreate).1, .ok ()) :=
  (subscription_created_replay_safe dbEx evCreate 1
    { id := 3, stripe_price_id := "price_pro", included_credits := 100,
      trial_period_days := none, is_active := true }
    (by decide) (by decide) (by decide) (by decide) (by decide) (by decide)
    (by decide)).2

end Billing
